import Mathlib

/-!
Shallow embedding of the browser client of the asamblea voting application
(src/frontend/app.js together with the unnamed component file, called
part_000 below).  The JavaScript file contains two textual revisions of
several top-level functions; since JavaScript function declarations are
hoisted and the later declaration wins, the later revision is the one the
running program executes.  Where both revisions matter they are embedded
separately with a V1 (earlier, shadowed) or no suffix (later, active).

Numbers that the code manipulates are small non-negative integers
(attempt counters, millisecond delays, second countdowns, question ids),
embedded as Nat, except countdown remainders, embedded as Int so that the
non-negativity invariant is a real statement about the update function.
-/

namespace Asamblea

/-- Notification produced through the shared NotificationSystem
(part_000 lines 10-37).  The show method defaults the level to info and
the display duration to 4000 ms when the caller omits them. -/
structure Notif where
  message : String
  level : String
  duration : Nat
deriving DecidableEq, Repr

/-- Entry appended to the admin activity log by addActivityLog
(app.js lines 6123-6140). -/
structure ActivityEntry where
  message : String
  level : String
deriving DecidableEq, Repr

/-! ## Reconnection policy (app.js lines 13-16 and 3855-3883) -/

/-- MAX_RECONNECT_ATTEMPTS constant, app.js line 16. -/
def MAX_RECONNECT_ATTEMPTS : Nat := 5

/-- Contract function of the spec: retry while the attempt count is below
the maximum (app.js line 3856 reads the shared counter against the
constant). -/
def shouldRetry (attemptCount : Nat) : Bool :=
  attemptCount < MAX_RECONNECT_ATTEMPTS

/-- Backoff delay formula of app.js line 3858:
min(1000 * 2 ^ attemptCount, 30000) milliseconds. -/
def nextDelay (attemptCount : Nat) : Nat :=
  min (1000 * 2 ^ attemptCount) 30000

/-- The two push-channel roles. -/
inductive WsRole
  | admin
  | voter
deriving DecidableEq, Repr

/-- Observable outcome of one call of attemptWebSocketReconnect
(app.js lines 3855-3871): the new value of the counter variable
wsReconnectAttempts, the delay passed to setTimeout when a retry is
scheduled, and whether the connection-lost warning toast was shown. -/
structure ReconnectOutcome where
  wsReconnectAttempts : Nat
  scheduledRetryDelay : Option Nat
  connectionLostWarning : Bool
deriving DecidableEq, Repr

/-- attemptWebSocketReconnect (app.js lines 3855-3871).  There is a single
global counter wsReconnectAttempts (app.js line 15); the role argument only
selects which connect function the scheduled timeout will call, it does not
key the counter.  The delay is computed from the already incremented
counter. -/
def attemptWebSocketReconnect (role : WsRole) (wsReconnectAttempts : Nat) :
    ReconnectOutcome :=
  if wsReconnectAttempts < MAX_RECONNECT_ATTEMPTS then
    let n := wsReconnectAttempts + 1
    { wsReconnectAttempts := n
      scheduledRetryDelay := some (min (1000 * 2 ^ n) 30000)
      connectionLostWarning := false }
  else
    { wsReconnectAttempts := wsReconnectAttempts
      scheduledRetryDelay := none
      connectionLostWarning := true }

/-- Delays scheduled by k consecutive channel closes with no successful
reopen in between (onopen, which resets the counter, never fires). -/
def reconnectTrace (role : WsRole) : Nat → Nat → List (Option Nat)
  | 0, _ => []
  | k + 1, n =>
    let r := attemptWebSocketReconnect role n
    r.scheduledRetryDelay :: reconnectTrace role k r.wsReconnectAttempts

/-- C1: the retry guard is exactly the attempt count being below 5, the
delay of the retry with (new) attempt count n is min(1000 * 2 ^ n, 30000),
a run of consecutive closes schedules 2000, 4000, 8000, 16000, 30000 ms
for attempts 1..5, and the sixth close retries no more and shows the
persistent warning. -/
theorem reconnect_policy_backoff :
    (∀ n : Nat, shouldRetry n = decide (n < 5)) ∧
    (∀ role n, (attemptWebSocketReconnect role n).wsReconnectAttempts =
      if shouldRetry n then n + 1 else n) ∧
    (∀ role n, (attemptWebSocketReconnect role n).scheduledRetryDelay =
      if shouldRetry n then some (nextDelay (n + 1)) else none) ∧
    (∀ role n, (attemptWebSocketReconnect role n).connectionLostWarning =
      !shouldRetry n) ∧
    reconnectTrace .admin 6 0 =
      [some 2000, some 4000, some 8000, some 16000, some 30000, none] ∧
    shouldRetry 5 = false := by
  refine ⟨fun n => rfl, fun role n => ?_, fun role n => ?_, fun role n => ?_,
    by decide, by decide⟩ <;>
  · by_cases h : n < MAX_RECONNECT_ATTEMPTS <;>
      simp [attemptWebSocketReconnect, shouldRetry, nextDelay, h]

/-- Retry budget still available to a channel: maximum minus the value of
the shared counter that guards the retry in app.js line 3856. -/
def remainingRetryBudget (wsReconnectAttempts : Nat) : Nat :=
  MAX_RECONNECT_ATTEMPTS - wsReconnectAttempts

/-- C3 counterexample: starting from a fresh session (shared counter 0), a
single close on the voter channel changes the admin channel remaining
retry budget from 5 to 4, because both roles share the one counter
wsReconnectAttempts (app.js line 15).  The claim says a voter close does
not change the admin budget. -/
theorem voter_close_changes_admin_budget :
    remainingRetryBudget
        (attemptWebSocketReconnect .voter 0).wsReconnectAttempts = 4 ∧
    remainingRetryBudget 0 = 5 ∧
    remainingRetryBudget
        (attemptWebSocketReconnect .voter 0).wsReconnectAttempts ≠
      remainingRetryBudget 0 := by decide

/-- C3 amended: the admin and voter reconnection streams share the single
counter wsReconnectAttempts; the counter update and the scheduled delay of
a close are identical for every role (the role only selects which channel
the timeout reopens), so a close on either channel consumes the common
budget, and only the backoff policy min(1000 * 2 ^ n, 30000) is shared in
the sense the spec intends. -/
theorem reconnect_counter_is_shared :
    (∀ n : Nat, ∀ r r₂ : WsRole,
      (attemptWebSocketReconnect r n).wsReconnectAttempts =
        (attemptWebSocketReconnect r₂ n).wsReconnectAttempts ∧
      (attemptWebSocketReconnect r n).scheduledRetryDelay =
        (attemptWebSocketReconnect r₂ n).scheduledRetryDelay) ∧
    (∀ n : Nat, n < MAX_RECONNECT_ATTEMPTS →
      ∀ r : WsRole,
        remainingRetryBudget (attemptWebSocketReconnect r n).wsReconnectAttempts
          < remainingRetryBudget n) := by
  constructor
  · exact fun n r r₂ => ⟨rfl, rfl⟩
  · intro n hn r
    simp only [attemptWebSocketReconnect, if_pos hn, remainingRetryBudget]
    omega

/-- C3 amended witness: the generic shared-counter statement evaluated at
the concrete counter value 2 and both roles. -/
theorem reconnect_counter_is_shared_witness :
    (attemptWebSocketReconnect .admin 2).wsReconnectAttempts =
        (attemptWebSocketReconnect .voter 2).wsReconnectAttempts ∧
    remainingRetryBudget
        (attemptWebSocketReconnect .voter 2).wsReconnectAttempts <
      remainingRetryBudget 2 :=
  ⟨(reconnect_counter_is_shared.1 2 .admin .voter).1,
    reconnect_counter_is_shared.2 2 (by decide) .voter⟩

/-! ## Admin channel message handler

The file declares handleAdminWebSocketMessage twice.  The later
declaration (app.js lines 3789-3820) shadows the earlier one
(app.js lines 223-282) and is the one the onmessage callback reaches.
Only the earlier, shadowed revision has a question_expired case. -/

/-- JavaScript a || b on a possibly absent string: the default is used when
the value is absent or falsy (the empty string). -/
def jsOrString (v : Option String) (d : String) : String :=
  match v with
  | some s => if s.isEmpty then d else s
  | none => d

/-- JavaScript a || b on a possibly absent number: the default is used when
the value is absent or falsy (zero). -/
def jsOrNat (v : Option Nat) (d : Nat) : Nat :=
  match v with
  | some n => if n = 0 then d else n
  | none => d

/-- Inbound frames the admin channel handlers switch on.  Payload fields
are the ones each branch reads from message.data. -/
inductive AdminMsg
  | attendance_registered (code name : String)
  | vote_registered (participant_code : String)
  | question_created
  | participant_removed (code : String)
  | excel_uploaded (inserted : Nat)
  | notification (text mtype : Option String) (duration : Option Nat)
  | question_expired (question_id : Nat) (text : String)
  | unknown (mtype : String)
deriving DecidableEq, Repr

/-- Observable effects of one dispatch through the active admin handler. -/
structure AdminEffects where
  loadAforoData : Bool
  loadActiveQuestions : Bool
  notificationsShown : List Notif
  activityLog : List ActivityEntry
deriving DecidableEq, Repr

/-- Dispatch with no observable effect. -/
def AdminEffects.none : AdminEffects :=
  { loadAforoData := false
    loadActiveQuestions := false
    notificationsShown := []
    activityLog := [] }

/-- handleAdminWebSocketMessage, the later and therefore active declaration
(app.js lines 3789-3820).  Its switch has no question_expired case and no
default, so such frames produce nothing. -/
def handleAdminWebSocketMessage : AdminMsg → AdminEffects
  | .attendance_registered code name =>
    { loadAforoData := true
      loadActiveQuestions := false
      notificationsShown :=
        [⟨"Nueva asistencia: " ++ code ++ " - " ++ name, "info", 5000⟩]
      activityLog := [⟨"Nueva asistencia: " ++ code ++ " - " ++ name, "success"⟩] }
  | .vote_registered participant_code =>
    { loadAforoData := true
      loadActiveQuestions := true
      notificationsShown := []
      activityLog := [⟨"Voto registrado: " ++ participant_code, "info"⟩] }
  | .question_created =>
    { loadAforoData := false
      loadActiveQuestions := true
      notificationsShown := [⟨"Nueva votación creada", "success", 4000⟩]
      activityLog := [⟨"Nueva votación creada", "success"⟩] }
  | .participant_removed code =>
    { loadAforoData := true
      loadActiveQuestions := false
      notificationsShown := [⟨"Código eliminado: " ++ code, "warning", 4000⟩]
      activityLog := [⟨"Código eliminado: " ++ code, "warning"⟩] }
  | .excel_uploaded inserted =>
    { loadAforoData := true
      loadActiveQuestions := false
      notificationsShown :=
        [⟨"Excel cargado: " ++ toString inserted ++ " participantes", "success", 6000⟩]
      activityLog :=
        [⟨"Excel cargado: " ++ toString inserted ++ " participantes", "success"⟩] }
  | .notification text mtype duration =>
    { loadAforoData := false
      loadActiveQuestions := false
      notificationsShown :=
        [⟨jsOrString text "Notificación del sistema", jsOrString mtype "info",
          jsOrNat duration 5000⟩]
      activityLog := [] }
  | .question_expired _ _ => AdminEffects.none
  | .unknown _ => AdminEffects.none

/-- De-duplication state of the earlier, shadowed revision: the
window.lastNotifications map from the key built out of the question id to
the timestamp of the last fired notification (app.js lines 264-271). -/
structure ExpiredDedupState where
  lastNotifications : List (Nat × Nat)
deriving DecidableEq, Repr

/-- Map lookup on window.lastNotifications. -/
def lookupLast (s : List (Nat × Nat)) (question_id : Nat) : Option Nat :=
  (s.find? (fun p => p.1 = question_id)).map Prod.snd

/-- Map update (set the key to the current time). -/
def storeLast (s : List (Nat × Nat)) (question_id now : Nat) : List (Nat × Nat) :=
  (question_id, now) :: s.filter (fun p => p.1 ≠ question_id)

/-- Observable outcome of the question_expired branch of the earlier,
shadowed handler revision. -/
structure ExpiredOutcome where
  state : ExpiredDedupState
  loadActiveQuestions : Bool
  notificationsShown : List Notif
  activityLog : List ActivityEntry
deriving DecidableEq, Repr

/-- The question_expired case of the earlier, shadowed revision of
handleAdminWebSocketMessage (app.js lines 262-276).  The branch fires when
the key is absent, when the stored timestamp is 0 (falsy in JavaScript),
or when more than 5000 ms have passed; a repeat within the window does
nothing at all. -/
def handleQuestionExpiredV1 (s : ExpiredDedupState) (now question_id : Nat)
    (text : String) : ExpiredOutcome :=
  let fire : ExpiredOutcome :=
    { state := ⟨storeLast s.lastNotifications question_id now⟩
      loadActiveQuestions := true
      notificationsShown := [⟨"Una votación ha expirado automáticamente", "warning", 4000⟩]
      activityLog := [⟨"Votación expirada: " ++ text, "warning"⟩] }
  match lookupLast s.lastNotifications question_id with
  | Option.none => fire
  | some last =>
    if last = 0 ∨ now - last > 5000 then fire
    else { state := s
           loadActiveQuestions := false
           notificationsShown := []
           activityLog := [] }

/-- C2 counterexample: through the handler the admin channel actually
dispatches to, a question_expired frame (question 7, any spacing) triggers
no data reload, no notification, and no activity-log entry at all, so a
pair of such frames spaced 5000 ms or more apart does not trigger one
visible effect each. -/
theorem question_expired_is_dropped_by_active_handler :
    handleAdminWebSocketMessage (.question_expired 7 "X") = AdminEffects.none ∧
    (handleAdminWebSocketMessage (.question_expired 7 "X")).loadActiveQuestions
        = false ∧
    (handleAdminWebSocketMessage (.question_expired 7 "X")).activityLog = [] ∧
    (handleAdminWebSocketMessage (.question_expired 7 "X")).notificationsShown
        = [] := by
  exact ⟨rfl, rfl, rfl, rfl⟩

/-- C2 amended: the active (later) declaration of
handleAdminWebSocketMessage has no question_expired case, so such frames
never trigger a notification, an activity-log entry or a data refresh,
whatever their spacing; the described behaviour - a data reload, a
warning-tagged activity-log entry and a warning toast, with a repeat for
the same question id suppressed when it arrives within 5000 ms (inclusive)
and firing again only when strictly more than 5000 ms have passed - is
implemented only by the earlier, shadowed revision (app.js lines 262-276). -/
theorem question_expired_dedup_only_in_shadowed_revision :
    (∀ question_id text,
      handleAdminWebSocketMessage (.question_expired question_id text) =
        AdminEffects.none) ∧
    (∀ t₁ d question_id text, 0 < t₁ →
      (handleQuestionExpiredV1 ⟨[]⟩ t₁ question_id text).loadActiveQuestions
          = true ∧
      (handleQuestionExpiredV1 ⟨[]⟩ t₁ question_id text).activityLog =
          [⟨"Votación expirada: " ++ text, "warning"⟩] ∧
      (handleQuestionExpiredV1 ⟨[]⟩ t₁ question_id text).notificationsShown =
          [⟨"Una votación ha expirado automáticamente", "warning", 4000⟩] ∧
      (handleQuestionExpiredV1
          (handleQuestionExpiredV1 ⟨[]⟩ t₁ question_id text).state
          (t₁ + d) question_id text).loadActiveQuestions = decide (5000 < d) ∧
      (handleQuestionExpiredV1
          (handleQuestionExpiredV1 ⟨[]⟩ t₁ question_id text).state
          (t₁ + d) question_id text).activityLog.length =
        if 5000 < d then 1 else 0) := by
  refine ⟨fun question_id text => rfl, fun t₁ d question_id text ht => ?_⟩
  have hstate : (handleQuestionExpiredV1 ⟨[]⟩ t₁ question_id text).state =
      ⟨[(question_id, t₁)]⟩ := by
    simp [handleQuestionExpiredV1, lookupLast, storeLast]
  have hlook : lookupLast [(question_id, t₁)] question_id = some t₁ := by
    simp [lookupLast]
  have hsub : t₁ + d - t₁ = d := by omega
  refine ⟨rfl, rfl, rfl, ?_, ?_⟩ <;>
  · rw [hstate]
    simp only [handleQuestionExpiredV1, hlook, hsub]
    by_cases hd : 5000 < d
    · rw [if_pos (Or.inr hd)]
      simp [hd]
    · rw [if_neg (by omega)]
      simp [hd]

/-- C2 amended witness: the de-duplication statement of the shadowed
revision evaluated at time 1000, question 7, with the repeat 1000 ms
later (suppressed). -/
theorem question_expired_dedup_witness :
    (handleQuestionExpiredV1 ⟨[]⟩ 1000 7 "X").loadActiveQuestions = true ∧
    (handleQuestionExpiredV1
        (handleQuestionExpiredV1 ⟨[]⟩ 1000 7 "X").state 2000 7 "X").activityLog.length
      = if 5000 < 1000 then 1 else 0 := by
  have h := question_expired_dedup_only_in_shadowed_revision.2 1000 1000 7 "X"
    (by decide)
  exact ⟨h.1, h.2.2.2.2⟩

/-! ## Voter channel message handler

handleVoterWebSocketMessage is also declared twice: app.js lines 284-315
(earlier) and lines 3822-3853 (later, the one calls reach).  Both are
embedded below, each transcribed from its own line range. -/

/-- Inbound frames the voter channel handlers switch on.  For
admin_message the payload type and duration are forwarded verbatim to the
notification system, whose defaults apply when they are absent. -/
inductive VoterMsg
  | new_question (text : String)
  | question_status_changed (closed : Bool) (text : String)
  | question_deleted (text : String)
  | time_extended (message : String)
  | admin_message (text : String) (mtype : Option String) (duration : Option Nat)
  | system_reset
  | force_disconnect (message : String)
  | unknown (mtype : String)
deriving DecidableEq, Repr

/-- Observable effects of one dispatch through a voter handler: whether
the questions view is refreshed, the toasts shown, and the delayed page
reload (system_reset) or logout (force_disconnect) that gets scheduled. -/
structure VoterEffects where
  loadVotingQuestions : Bool
  notificationsShown : List Notif
  scheduledReloadAfterMs : Option Nat
  scheduledLogoutAfterMs : Option Nat
deriving DecidableEq, Repr

/-- handleVoterWebSocketMessage, earlier declaration (app.js lines
284-315). -/
def handleVoterWebSocketMessageV1 : VoterMsg → VoterEffects
  | .new_question text =>
    { loadVotingQuestions := true
      notificationsShown := [⟨"📋 Nueva votación: " ++ text, "info", 8000⟩]
      scheduledReloadAfterMs := none
      scheduledLogoutAfterMs := none }
  | .question_status_changed closed text =>
    let status := if closed then "cerrada" else "abierta"
    { loadVotingQuestions := true
      notificationsShown := [⟨"📊 Votación " ++ status ++ ": " ++ text, "info", 6000⟩]
      scheduledReloadAfterMs := none
      scheduledLogoutAfterMs := none }
  | .question_deleted text =>
    { loadVotingQuestions := true
      notificationsShown := [⟨"🗑️ Votación eliminada: " ++ text, "warning", 6000⟩]
      scheduledReloadAfterMs := none
      scheduledLogoutAfterMs := none }
  | .time_extended message =>
    { loadVotingQuestions := true
      notificationsShown := [⟨"⏰ " ++ message, "success", 10000⟩]
      scheduledReloadAfterMs := none
      scheduledLogoutAfterMs := none }
  | .admin_message text mtype duration =>
    { loadVotingQuestions := false
      notificationsShown := [⟨"📢 " ++ text, mtype.getD "info", duration.getD 4000⟩]
      scheduledReloadAfterMs := none
      scheduledLogoutAfterMs := none }
  | .system_reset =>
    { loadVotingQuestions := false
      notificationsShown := [⟨"🔄 La asamblea ha sido reiniciada", "warning", 10000⟩]
      scheduledReloadAfterMs := some 3000
      scheduledLogoutAfterMs := none }
  | .force_disconnect message =>
    { loadVotingQuestions := false
      notificationsShown := [⟨message, "error", 10000⟩]
      scheduledReloadAfterMs := none
      scheduledLogoutAfterMs := some 2000 }
  | .unknown _ =>
    { loadVotingQuestions := false
      notificationsShown := []
      scheduledReloadAfterMs := none
      scheduledLogoutAfterMs := none }

/-- handleVoterWebSocketMessage, later declaration (app.js lines
3822-3853), the one that shadows the earlier and receives the dispatches. -/
def handleVoterWebSocketMessageV2 : VoterMsg → VoterEffects
  | .new_question text =>
    { loadVotingQuestions := true
      notificationsShown := [⟨"📋 Nueva votación: " ++ text, "info", 8000⟩]
      scheduledReloadAfterMs := none
      scheduledLogoutAfterMs := none }
  | .question_status_changed closed text =>
    let status := if closed then "cerrada" else "abierta"
    { loadVotingQuestions := true
      notificationsShown := [⟨"📊 Votación " ++ status ++ ": " ++ text, "info", 6000⟩]
      scheduledReloadAfterMs := none
      scheduledLogoutAfterMs := none }
  | .question_deleted text =>
    { loadVotingQuestions := true
      notificationsShown := [⟨"🗑️ Votación eliminada: " ++ text, "warning", 6000⟩]
      scheduledReloadAfterMs := none
      scheduledLogoutAfterMs := none }
  | .time_extended message =>
    { loadVotingQuestions := true
      notificationsShown := [⟨"⏰ " ++ message, "success", 10000⟩]
      scheduledReloadAfterMs := none
      scheduledLogoutAfterMs := none }
  | .admin_message text mtype duration =>
    { loadVotingQuestions := false
      notificationsShown := [⟨"📢 " ++ text, mtype.getD "info", duration.getD 4000⟩]
      scheduledReloadAfterMs := none
      scheduledLogoutAfterMs := none }
  | .system_reset =>
    { loadVotingQuestions := false
      notificationsShown := [⟨"🔄 La asamblea ha sido reiniciada", "warning", 10000⟩]
      scheduledReloadAfterMs := some 3000
      scheduledLogoutAfterMs := none }
  | .force_disconnect message =>
    { loadVotingQuestions := false
      notificationsShown := [⟨message, "error", 10000⟩]
      scheduledReloadAfterMs := none
      scheduledLogoutAfterMs := some 2000 }
  | .unknown _ =>
    { loadVotingQuestions := false
      notificationsShown := []
      scheduledReloadAfterMs := none
      scheduledLogoutAfterMs := none }

/-- C9: the two textual revisions of the voter channel handler are
observationally equivalent - for every inbound message they produce the
same refresh, the same toasts and the same scheduled session transition,
so the shadowing of the earlier declaration does not change voter channel
behaviour. -/
theorem voter_handler_revisions_equivalent :
    ∀ m : VoterMsg,
      handleVoterWebSocketMessageV1 m = handleVoterWebSocketMessageV2 m := by
  intro m
  cases m <;> rfl

/-! ## Countdown registry (app.js lines 1070-1120)

initializeVotingTimer drives every rendered .question-timer element from
one shared 1000 ms interval.  Each tick reads the data-remaining attribute
of every element: a positive value is decremented, a value equal to zero
redraws the expired banner and schedules the refresh callbacks, and the
interval is cleared when no element held a positive value at the start of
the tick. -/

/-- One rendered question timer: the data-remaining attribute and how many
times the tick callback has scheduled the expiry refresh for it. -/
structure CountdownTimer where
  remaining : Int
  refreshRequests : Nat
deriving DecidableEq, Repr

/-- State of the shared clock: the timers it drives and whether
window.timerInterval is still set. -/
structure VotingTimerState where
  timers : List CountdownTimer
  clockRunning : Bool
deriving DecidableEq, Repr

/-- Per-element body of the interval callback (app.js lines 1086-1111):
a positive remainder is decremented and written back; a remainder equal
to zero leaves the attribute alone and schedules the expiry refresh once
more; the guard means the value is never pushed below zero. -/
def tickOne (t : CountdownTimer) : CountdownTimer :=
  if 0 < t.remaining then { t with remaining := t.remaining - 1 }
  else if t.remaining = 0 then { t with refreshRequests := t.refreshRequests + 1 }
  else t

/-- The activeTimers count of the callback: elements whose remainder was
positive when the tick read them (app.js lines 1084-1089). -/
def activeTimersCount (ts : List CountdownTimer) : Nat :=
  (ts.filter (fun t => decide (0 < t.remaining))).length

/-- One firing of the shared interval (app.js lines 1083-1118): every
timer is updated, and the interval is cleared when no timer was active at
the start of the tick.  A cleared clock ticks no more. -/
def timerTick (s : VotingTimerState) : VotingTimerState :=
  if s.clockRunning then
    { timers := s.timers.map tickOne
      clockRunning := decide (activeTimersCount s.timers ≠ 0) }
  else s

/-- initializeVotingTimer (app.js lines 1076-1120) over the data-remaining
values read from the rendered elements: the interval is installed exactly
when at least one timer element exists, and no refresh is requested at
registration time. -/
def initializeVotingTimer (initial : List Int) : VotingTimerState :=
  { timers := initial.map (fun r => ⟨r, 0⟩)
    clockRunning := decide (0 < initial.length) }

/-- n firings of the shared interval. -/
def ticks : Nat → VotingTimerState → VotingTimerState
  | 0, s => s
  | n + 1, s => ticks n (timerTick s)

/-- Question fields renderVotingQuestions reads for the timer decision:
time_remaining_seconds is absent when the backend sent null or omitted
the field. -/
structure VoterQuestion where
  id : Nat
  closed : Bool
  time_remaining_seconds : Option Int
deriving DecidableEq, Repr

/-- The gate of app.js lines 1070-1073: initializeVotingTimer is scheduled
only when some question has strictly positive remaining time (a null
remainder compares false against 0 in JavaScript). -/
def hasTimedQuestions (qs : List VoterQuestion) : Bool :=
  qs.any (fun q =>
    match q.time_remaining_seconds with
    | some t => decide (0 < t)
    | Option.none => false)

/-- C4 counterexample: a countdown registered with remaining time 0 is not
reported expired at registration - immediately after
initializeVotingTimer its refresh count is 0, the expiry refresh is first
requested by the tick one second later, and a render whose only timed
question is already at 0 never even schedules the timer (the gate of
app.js line 1070 requires a strictly positive remainder). -/
theorem zero_countdown_not_expired_immediately :
    ((initializeVotingTimer [0]).timers.map CountdownTimer.refreshRequests
        = [0]) ∧
    ((ticks 1 (initializeVotingTimer [0])).timers.map
        CountdownTimer.refreshRequests = [1]) ∧
    hasTimedQuestions [⟨1, false, some 0⟩] = false := by decide

/-- C4 amended: registering a countdown already at 0 does not fire the
expiry refresh immediately; when the shared clock runs, the refresh is
first requested on the following 1000 ms tick, and the clock is only
started at all when some rendered question has strictly positive
remaining time - a render all of whose questions have no remaining time
or a non-positive one never schedules the timer initialization. -/
theorem zero_countdown_waits_for_tick :
    ((initializeVotingTimer [0, 5]).timers.map CountdownTimer.refreshRequests
        = [0, 0]) ∧
    ((ticks 1 (initializeVotingTimer [0, 5])).timers.map
        CountdownTimer.refreshRequests = [1, 0]) ∧
    (∀ qs : List VoterQuestion,
      (∀ q ∈ qs, q.time_remaining_seconds.getD 0 ≤ 0) →
        hasTimedQuestions qs = false) := by
  refine ⟨by decide, by decide, ?_⟩
  intro qs h
  simp only [hasTimedQuestions, List.any_eq_false]
  intro q hq
  have := h q hq
  cases hts : q.time_remaining_seconds with
  | none => simp
  | some t =>
    rw [hts] at this
    simp only [Option.getD_some] at this
    simp [Int.not_lt.mpr this]

/-- C4 amended witness: the gate statement evaluated at a concrete
question list whose only countdown is already at 0. -/
theorem zero_countdown_waits_for_tick_witness :
    hasTimedQuestions [⟨1, false, some 0⟩, ⟨2, true, Option.none⟩] = false :=
  zero_countdown_waits_for_tick.2.2
    [⟨1, false, some 0⟩, ⟨2, true, Option.none⟩] (by decide)

/-- C5 counterexample: with one countdown already at 0 and another at 2,
three ticks of the shared clock schedule the expiry refresh three times
for the first countdown - an already expired timer re-fires the refresh
on every tick for as long as any other timer keeps the interval alive, so
the refresh is not requested at most once per zero crossing. -/
theorem expired_countdown_refires_every_tick :
    ((ticks 3 (initializeVotingTimer [0, 2])).timers.map
        CountdownTimer.refreshRequests = [3, 1]) ∧
    ¬ (∀ t ∈ (ticks 3 (initializeVotingTimer [0, 2])).timers,
        t.refreshRequests ≤ 1) := by decide

/-- remainingSeconds of every timer survives a tick non-negative. -/
theorem tickOne_nonneg {t : CountdownTimer} (h : 0 ≤ t.remaining) :
    0 ≤ (tickOne t).remaining := by
  unfold tickOne
  rcases lt_or_eq_of_le h with hpos | hzero
  · rw [if_pos hpos]
    show 0 ≤ t.remaining - 1
    omega
  · rw [if_neg (by omega), if_pos hzero.symm]
    exact h

/-- Non-negativity is preserved by a full tick of the shared clock. -/
theorem timerTick_nonneg {s : VotingTimerState}
    (h : ∀ t ∈ s.timers, 0 ≤ t.remaining) :
    ∀ t ∈ (timerTick s).timers, 0 ≤ t.remaining := by
  unfold timerTick
  by_cases hc : s.clockRunning
  · rw [if_pos hc]
    intro t ht
    simp only [List.mem_map] at ht
    obtain ⟨u, hu, rfl⟩ := ht
    exact tickOne_nonneg (h u hu)
  · rw [if_neg hc]
    exact h

/-- C5 amended: across any number of ticks no countdown remainder is ever
observed negative (the zero case leaves the attribute untouched); and the
shared clock is not left running idle - on the first tick at which no
countdown is positive the interval is cleared, which is one tick after the
last active countdown reaches zero; but, as the counterexample shows, an
expired countdown has its refresh re-requested on every further tick while
the clock still runs, so at most once per zero crossing holds only for the
countdown that expires last. -/
theorem countdown_nonneg_and_clock_stops :
    (∀ s : VotingTimerState, (∀ t ∈ s.timers, 0 ≤ t.remaining) →
      ∀ n, ∀ t ∈ (ticks n s).timers, 0 ≤ t.remaining) ∧
    (∀ s : VotingTimerState, activeTimersCount s.timers = 0 →
      (timerTick s).clockRunning = false) ∧
    (∀ s : VotingTimerState, s.clockRunning = true →
      activeTimersCount s.timers = 0 →
      ∀ n, 1 ≤ n → ticks n s = { timers := s.timers.map tickOne, clockRunning := false }) := by
  refine ⟨?_, ?_, ?_⟩
  · intro s hs n
    induction n generalizing s with
    | zero => exact hs
    | succ k ih =>
      intro t ht
      exact ih (timerTick s) (timerTick_nonneg hs) t ht
  · intro s h
    unfold timerTick
    by_cases hc : s.clockRunning
    · rw [if_pos hc]
      simp [h]
    · rw [if_neg hc]
      exact Bool.of_not_eq_true hc
  · intro s hrun hidle n hn
    have hstep : timerTick s =
        { timers := s.timers.map tickOne, clockRunning := false } := by
      unfold timerTick
      rw [if_pos hrun]
      simp [hidle]
    have hfrozen : ∀ m : Nat, ticks m
        { timers := s.timers.map tickOne, clockRunning := false } =
        { timers := s.timers.map tickOne, clockRunning := false } := by
      intro m
      induction m with
      | zero => rfl
      | succ k ih =>
        show ticks k (timerTick _) = _
        rw [show timerTick { timers := s.timers.map tickOne, clockRunning := false } =
          { timers := s.timers.map tickOne, clockRunning := false } from rfl]
        exact ih
    obtain ⟨m, rfl⟩ : ∃ m, n = m + 1 := ⟨n - 1, by omega⟩
    show ticks m (timerTick s) = _
    rw [hstep, hfrozen]

/-- C5 amended witness: the three statements evaluated at a concrete
one-timer state whose countdown is already at zero. -/
theorem countdown_nonneg_and_clock_stops_witness :
    (∀ t ∈ (ticks 2 ⟨[⟨0, 0⟩], true⟩).timers, 0 ≤ t.remaining) ∧
    (timerTick ⟨[⟨0, 0⟩], true⟩).clockRunning = false ∧
    ticks 1 (⟨[⟨0, 0⟩], true⟩ : VotingTimerState) =
      { timers := List.map tickOne [⟨0, 0⟩], clockRunning := false } :=
  ⟨countdown_nonneg_and_clock_stops.1 ⟨[⟨0, 0⟩], true⟩ (by decide) 2,
    countdown_nonneg_and_clock_stops.2.1 ⟨[⟨0, 0⟩], true⟩ (by decide),
    countdown_nonneg_and_clock_stops.2.2 ⟨[⟨0, 0⟩], true⟩ rfl (by decide) 1
      (by decide)⟩

/-! ## Session teardown (app.js lines 3873-3883 and 3908-3940) -/

/-- The session variables and resources logout touches: the global state
variables of app.js lines 9-19, whether each socket and interval handle is
set, and whether each token key is present in localStorage. -/
structure SessionState where
  adminToken : Option String
  voterToken : Option String
  currentUser : Option String
  isAdmin : Bool
  adminWebSocket : Bool
  voterWebSocket : Bool
  wsReconnectAttempts : Nat
  updateInterval : Bool
  monitoringInterval : Bool
  storedAdminToken : Bool
  storedVoterToken : Bool
deriving DecidableEq, Repr

/-- Teardown side effects a logout call performs: localStorage.removeItem
calls, socket close calls, clearInterval calls, toasts, and the screen
transition. -/
structure LogoutEffects where
  storageRemoveOps : Nat
  socketCloses : Nat
  intervalClears : Nat
  notificationsShown : List Notif
  screenShown : Option String
deriving DecidableEq, Repr

/-- logout (app.js lines 3908-3940), the later and active declaration,
together with the disconnectWebSocket (lines 3873-3883) and stopMonitoring
(lines 6116-6121) calls it makes.  Socket closes and interval clears are
guarded by null checks; clearTokens (lines 3659-3662) removes both token
keys unconditionally, and the closing toast and screen transition are
unconditional as well. -/
def logout (s : SessionState) : SessionState × LogoutEffects :=
  ({ adminToken := Option.none
     voterToken := Option.none
     currentUser := Option.none
     isAdmin := false
     adminWebSocket := false
     voterWebSocket := false
     wsReconnectAttempts := 0
     updateInterval := false
     monitoringInterval := false
     storedAdminToken := false
     storedVoterToken := false },
   { storageRemoveOps := 2
     socketCloses :=
       (if s.adminWebSocket then 1 else 0) + (if s.voterWebSocket then 1 else 0)
     intervalClears :=
       (if s.updateInterval then 1 else 0) + (if s.monitoringInterval then 1 else 0)
     notificationsShown := [⟨"Sesión cerrada correctamente", "info", 4000⟩]
     screenShown := some "welcome-screen" })

/-- A voter session with an open socket and a running poll interval. -/
def voterSessionExample : SessionState :=
  { adminToken := Option.none
    voterToken := some "tok"
    currentUser := some "1-201"
    isAdmin := false
    adminWebSocket := false
    voterWebSocket := true
    wsReconnectAttempts := 2
    updateInterval := true
    monitoringInterval := false
    storedAdminToken := false
    storedVoterToken := true }

/-- C6 counterexample: calling logout twice in a row from a live voter
session is not a no-op the second time - the second call shows the
closing toast again (and repeats the token-storage removals), a
user-visible side effect beyond the first call. -/
theorem second_logout_shows_toast_again :
    (logout (logout voterSessionExample).1).2.notificationsShown =
      [⟨"Sesión cerrada correctamente", "info", 4000⟩] ∧
    (logout (logout voterSessionExample).1).2.notificationsShown ≠ [] ∧
    (logout (logout voterSessionExample).1).2.storageRemoveOps = 2 := by
  decide

/-- C6 amended: a second logout call raises no exception, leaves the state
exactly where the first left it, and performs no duplicate socket close or
interval clear (those are guarded), but it unconditionally repeats the two
token-storage removals, the screen transition and the closed-session
toast. -/
theorem logout_state_idempotent_but_toast_repeats :
    ∀ s : SessionState,
      (logout (logout s).1).1 = (logout s).1 ∧
      (logout (logout s).1).2.socketCloses = 0 ∧
      (logout (logout s).1).2.intervalClears = 0 ∧
      (logout (logout s).1).2.storageRemoveOps = 2 ∧
      (logout (logout s).1).2.notificationsShown =
        [⟨"Sesión cerrada correctamente", "info", 4000⟩] :=
  fun _ => ⟨rfl, rfl, rfl, rfl, rfl⟩

/-! ## Yes/no vote submission (app.js lines 4448-4475) -/

/-- Starts-with test on character lists. -/
def headMatches : List Char → List Char → Bool
  | [], _ => true
  | _ :: _, [] => false
  | a :: as, b :: bs => a == b && headMatches as bs

/-- Occurrence test on character lists. -/
def occursIn (sub : List Char) : List Char → Bool
  | [] => sub.isEmpty
  | c :: rest => headMatches sub (c :: rest) || occursIn sub rest

/-- JavaScript String.prototype.includes. -/
def includes (s sub : String) : Bool :=
  occursIn sub.data s.data

/-- The reserved demo access code, app.js line 6. -/
def CODIGO_PRUEBA : String := "999-999"

/-- Outcome of the awaited POST /voting/vote call: resolved, or rejected
with the error message built by apiCall. -/
inductive ApiOutcome
  | ok
  | rejected (message : String)
deriving DecidableEq, Repr

/-- Observable effects of one voteYesNo call. -/
structure VoteEffects where
  loadVotingQuestions : Bool
  notificationsShown : List Notif
deriving DecidableEq, Repr

/-- voteYesNo, the later and active declaration (app.js lines 4448-4475),
as a function of the current user code and of the outcome of the vote
request.  The demo code short-circuits; otherwise a progress toast is
shown, then on success the questions view is reloaded and a success toast
shown, and on rejection the raw message is replaced by the fixed text
whenever it contains the substring used in the includes check. -/
def voteYesNo (currentUserCode : Option String) (answer : String)
    (outcome : ApiOutcome) : VoteEffects :=
  if currentUserCode = some CODIGO_PRUEBA then
    { loadVotingQuestions := true
      notificationsShown := [⟨"Voto de prueba registrado: " ++ answer, "success", 4000⟩] }
  else
    match outcome with
    | .ok =>
      { loadVotingQuestions := true
        notificationsShown :=
          [⟨"Registrando voto...", "info", 4000⟩,
           ⟨"Voto registrado: " ++ answer, "success", 4000⟩] }
    | .rejected message =>
      { loadVotingQuestions := false
        notificationsShown :=
          [⟨"Registrando voto...", "info", 4000⟩,
           if includes message "Ya has votado" then
             ⟨"Ya has votado en esta pregunta", "error", 4000⟩
           else
             ⟨"Error: " ++ message, "error", 4000⟩] }

/-- C7: for a non-demo voter submitting the yes/no answer SÍ, a resolved
request reloads the questions view and shows a success toast, and a
rejected request whose message contains the Ya-has-votado marker shows
exactly the fixed toast Ya has votado en esta pregunta instead of the raw
server message. -/
theorem vote_yes_no_toasts :
    (∀ u : Option String, u ≠ some CODIGO_PRUEBA →
      voteYesNo u "SÍ" .ok =
        { loadVotingQuestions := true
          notificationsShown :=
            [⟨"Registrando voto...", "info", 4000⟩,
             ⟨"Voto registrado: SÍ", "success", 4000⟩] }) ∧
    (∀ u : Option String, ∀ message : String, u ≠ some CODIGO_PRUEBA →
      includes message "Ya has votado" = true →
      voteYesNo u "SÍ" (.rejected message) =
        { loadVotingQuestions := false
          notificationsShown :=
            [⟨"Registrando voto...", "info", 4000⟩,
             ⟨"Ya has votado en esta pregunta", "error", 4000⟩] }) := by
  constructor
  · intro u hu
    rw [voteYesNo, if_neg hu]
    rfl
  · intro u message hu hm
    rw [voteYesNo, if_neg hu]
    simp [hm]

/-- C7 witness: the two statements evaluated at the voter 1-201, with a
server rejection whose detail contains Ya has votado. -/
theorem vote_yes_no_toasts_witness :
    voteYesNo (some "1-201") "SÍ" .ok =
      { loadVotingQuestions := true
        notificationsShown :=
          [⟨"Registrando voto...", "info", 4000⟩,
           ⟨"Voto registrado: SÍ", "success", 4000⟩] } ∧
    voteYesNo (some "1-201") "SÍ" (.rejected "400: Ya has votado en esta pregunta") =
      { loadVotingQuestions := false
        notificationsShown :=
          [⟨"Registrando voto...", "info", 4000⟩,
           ⟨"Ya has votado en esta pregunta", "error", 4000⟩] } :=
  ⟨vote_yes_no_toasts.1 (some "1-201") (by decide),
    vote_yes_no_toasts.2 (some "1-201") "400: Ya has votado en esta pregunta"
      (by decide) (by decide)⟩

/-! ## Access-code validation (part_000 lines 643-652, app.js lines
3946-3957 and 4005-4011) -/

/-- JavaScript String.prototype.toUpperCase, restricted to the ASCII
uppercasing the access codes exercise. -/
def jsToUpperCase (s : String) : String :=
  (s.data.map Char.toUpper).asString

/-- JavaScript String.prototype.trim: leading and trailing whitespace is
removed. -/
def jsTrim (s : String) : String :=
  ((s.data.dropWhile Char.isWhitespace).reverse.dropWhile
    Char.isWhitespace).reverse.asString

/-- Utils.formatCode (part_000 lines 644-647): uppercase, then strip every
character outside [0-9-]. -/
def formatCode (code : String) : String :=
  ((jsToUpperCase code).data.filter (fun c => c.isDigit || c = '-')).asString

/-- Tail of the regex after the dash: one or more digits up to the
end of the string. -/
def digitsTail (l : List Char) : Bool :=
  !l.isEmpty && l.all Char.isDigit

/-- Remainder of the match of ^\d+-\d+$ once the leading digit run has
consumed at least one character: either the dash arrives here and the rest
must be all digits, or another digit extends the run. -/
def afterDigits : List Char → Bool
  | [] => false
  | c :: rest => if c = '-' then digitsTail rest else c.isDigit && afterDigits rest

/-- Full match of ^\d+-\d+$ against a character list: the first character
must open the leading digit run. -/
def matchCodeChars : List Char → Bool
  | [] => false
  | c :: rest => c.isDigit && afterDigits rest

/-- Utils.validateCode (part_000 lines 649-652): the test of the regular
expression ^\d+-\d+$ against the code. -/
def validateCode (code : String) : Bool :=
  matchCodeChars code.data

theorem digitsTail_iff (l : List Char) :
    digitsTail l = true ↔ l ≠ [] ∧ ∀ c ∈ l, c.isDigit = true := by
  cases l with
  | nil => simp [digitsTail]
  | cons c rest => simp [digitsTail, List.all_eq_true]

theorem afterDigits_iff (l : List Char) :
    afterDigits l = true ↔
      ∃ a b : List Char, l = a ++ '-' :: b ∧ (∀ c ∈ a, c.isDigit = true) ∧
        b ≠ [] ∧ (∀ c ∈ b, c.isDigit = true) := by
  induction l with
  | nil =>
    constructor
    · intro h
      exact absurd h (by simp [afterDigits])
    · rintro ⟨a, b, heq, -, -, -⟩
      exact absurd heq (by simp)
  | cons c rest ih =>
    by_cases hc : c = '-'
    · subst hc
      have hstep : afterDigits ('-' :: rest) = digitsTail rest := by
        simp [afterDigits]
      rw [hstep, digitsTail_iff]
      constructor
      · rintro ⟨hne, hall⟩
        exact ⟨[], rest, rfl, by simp, hne, hall⟩
      · rintro ⟨a, b, heq, ha, hb0, hb⟩
        cases a with
        | nil =>
          rw [List.nil_append] at heq
          simp only [List.cons.injEq] at heq
          obtain ⟨-, rfl⟩ := heq
          exact ⟨hb0, hb⟩
        | cons a0 as =>
          rw [List.cons_append] at heq
          simp only [List.cons.injEq] at heq
          obtain ⟨h0, -⟩ := heq
          have h2 := ha a0 (List.mem_cons_self _ _)
          rw [← h0] at h2
          exact absurd h2 (by decide)
    · have hstep : afterDigits (c :: rest) = (c.isDigit && afterDigits rest) := by
        simp [afterDigits, hc]
      rw [hstep, Bool.and_eq_true, ih]
      constructor
      · rintro ⟨hcd, a, b, rfl, ha, hb0, hb⟩
        refine ⟨c :: a, b, rfl, ?_, hb0, hb⟩
        intro x hx
        rcases List.mem_cons.mp hx with h | h
        · subst h
          exact hcd
        · exact ha x h
      · rintro ⟨a, b, heq, ha, hb0, hb⟩
        cases a with
        | nil =>
          rw [List.nil_append] at heq
          simp only [List.cons.injEq] at heq
          exact absurd heq.1 hc
        | cons a0 as =>
          rw [List.cons_append] at heq
          simp only [List.cons.injEq] at heq
          obtain ⟨rfl, rfl⟩ := heq
          refine ⟨ha c (List.mem_cons_self _ _), as, b, rfl, ?_, hb0, hb⟩
          intro x hx
          exact ha x (List.mem_cons_of_mem _ hx)

theorem matchCodeChars_iff (l : List Char) :
    matchCodeChars l = true ↔
      ∃ a b : List Char, l = a ++ '-' :: b ∧ a ≠ [] ∧ b ≠ [] ∧
        (∀ c ∈ a, c.isDigit = true) ∧ (∀ c ∈ b, c.isDigit = true) := by
  cases l with
  | nil =>
    constructor
    · intro h
      exact absurd h (by simp [matchCodeChars])
    · rintro ⟨a, b, heq, -, -, -⟩
      exact absurd heq (by simp)
  | cons c rest =>
    have hstep : matchCodeChars (c :: rest) = (c.isDigit && afterDigits rest) := by
      simp [matchCodeChars]
    rw [hstep, Bool.and_eq_true, afterDigits_iff]
    constructor
    · rintro ⟨hcd, a, b, rfl, ha, hb0, hb⟩
      refine ⟨c :: a, b, rfl, by simp, hb0, ?_, hb⟩
      intro x hx
      rcases List.mem_cons.mp hx with h | h
      · subst h
        exact hcd
      · exact ha x h
    · rintro ⟨a, b, heq, ha0, hb0, ha, hb⟩
      cases a with
      | nil => exact absurd rfl ha0
      | cons a0 as =>
        rw [List.cons_append] at heq
        simp only [List.cons.injEq] at heq
        obtain ⟨rfl, rfl⟩ := heq
        refine ⟨ha c (List.mem_cons_self _ _), as, b, rfl, ?_, hb0, hb⟩
        intro x hx
        exact ha x (List.mem_cons_of_mem _ hx)

/-- Validation gate of accessVoting (app.js lines 4005-4013): the value is
trimmed and uppercased, an empty or invalid code returns before any
apiCall, and the demo code takes the simulated branch that never touches
the network either. -/
def accessVotingMakesNetworkCall (inputValue : String) : Bool :=
  let code := jsToUpperCase (jsTrim inputValue)
  if code.isEmpty || !validateCode code then false
  else if code = CODIGO_PRUEBA then false
  else true

/-- Validation gate of registerAttendance (app.js lines 3946-3957), same
shape as the accessVoting gate. -/
def registerAttendanceMakesNetworkCall (inputValue : String) : Bool :=
  let code := jsToUpperCase (jsTrim inputValue)
  if code.isEmpty || !validateCode code then false
  else if code = CODIGO_PRUEBA then false
  else true

/-- C8: validateCode accepts exactly the strings of shape digits, one
dash, digits (the language of ^\d+-\d+$); the input layer strip keeps
1-201 intact; 1-201 passes the gates of accessVoting and
registerAttendance while abc is rejected before any network call. -/
theorem access_code_validation :
    (∀ code : String, validateCode code = true ↔
      ∃ a b : List Char, code.data = a ++ '-' :: b ∧ a ≠ [] ∧ b ≠ [] ∧
        (∀ c ∈ a, c.isDigit = true) ∧ (∀ c ∈ b, c.isDigit = true)) ∧
    validateCode "1-201" = true ∧
    validateCode (jsToUpperCase "abc") = false ∧
    formatCode "1-201" = "1-201" ∧
    accessVotingMakesNetworkCall "1-201" = true ∧
    accessVotingMakesNetworkCall "abc" = false ∧
    registerAttendanceMakesNetworkCall "1-201" = true ∧
    registerAttendanceMakesNetworkCall "abc" = false := by
  refine ⟨fun code => matchCodeChars_iff code.data, ?_, ?_, ?_, ?_, ?_, ?_, ?_⟩ <;>
    decide

/-! ## Voted-question lookup (app.js lines 4430-4442) -/

/-- One element of the my-votes response body. -/
structure VoteRecord where
  question_id : Nat
deriving DecidableEq, Repr

/-- Outcome of the awaited GET /voting/my-votes request. -/
inductive FetchVotesResult
  | ok (votes : List VoteRecord)
  | rejected (message : String)
deriving DecidableEq, Repr

/-- The try-block of checkUserVotes (app.js lines 4431-4437): the demo
user answers the empty set before any request; otherwise the request
outcome is propagated, a resolved response becoming the set of its
question ids. -/
def checkUserVotesBody (currentUserCode : Option String)
    (result : FetchVotesResult) : Except String (Finset Nat) :=
  if currentUserCode = some CODIGO_PRUEBA then .ok ∅
  else
    match result with
    | .ok votes => .ok (votes.map VoteRecord.question_id).toFinset
    | .rejected message => Except.error message

/-- checkUserVotes (app.js lines 4430-4442): the catch clause turns every
failure into the empty set, so the caller always receives a set of
question ids. -/
def checkUserVotes (currentUserCode : Option String)
    (result : FetchVotesResult) : Finset Nat :=
  match checkUserVotesBody currentUserCode result with
  | .ok s => s
  | Except.error _ => ∅

theorem checkUserVotes_rejected (u : Option String) (m : String) :
    checkUserVotes u (.rejected m) = ∅ := by
  by_cases hu : u = some CODIGO_PRUEBA <;>
    simp [checkUserVotes, checkUserVotesBody, hu]

/-- C10: checkUserVotes never propagates an error - for every request
outcome it returns a set of question ids; the demo user and every failed
request yield the empty set, so after a failed fetch no question id is
reported as voted; a successful response for a real user yields exactly
the ids of the returned votes. -/
theorem check_user_votes_never_fails :
    (∀ r, checkUserVotes (some CODIGO_PRUEBA) r = ∅) ∧
    (∀ u m, checkUserVotes u (.rejected m) = ∅) ∧
    (∀ u votes, u ≠ some CODIGO_PRUEBA →
      checkUserVotes u (.ok votes) =
        (votes.map VoteRecord.question_id).toFinset) ∧
    (∀ u m q, q ∉ checkUserVotes u (.rejected m)) := by
  refine ⟨?_, checkUserVotes_rejected, ?_, ?_⟩
  · intro r
    simp [checkUserVotes, checkUserVotesBody]
  · intro u votes hu
    simp [checkUserVotes, checkUserVotesBody, hu]
  · intro u m q
    rw [checkUserVotes_rejected]
    exact Finset.not_mem_empty q

/-- C10 witness: the successful-response statement evaluated at the voter
1-201 with two returned votes. -/
theorem check_user_votes_never_fails_witness :
    checkUserVotes (some "1-201") (.ok [⟨4⟩, ⟨7⟩]) =
      (List.map VoteRecord.question_id [⟨4⟩, ⟨7⟩]).toFinset :=
  check_user_votes_never_fails.2.2.1 (some "1-201") [⟨4⟩, ⟨7⟩] (by decide)

end Asamblea
